import Mathlib

/-!
Shallow embedding of the player-lifecycle component in
src/components/TwitchPlayer.tsx of luke-h1/foam-player.

The component is a React widget.  We embed its mutable pieces as an explicit
record `WidgetState` (the `useState` hooks, the `playerRef` and the idle-timer
ref, together with the runtime's pending-timer table and two ghost histories:
the set of live SDK instances and the container ids ever generated).  Each
closure of the source (the imperative-handle methods, the SDK event handlers,
`loadTwitchPlayer`, the effect cleanup, the overlay handlers) becomes a Lean
function on `WidgetState`; calls into the opaque SDK instance and invocations
of the host's callback props are recorded as an `Effect` trace.  Fallible
facade methods return `Except JsError` so that a null dereference, were one
reachable, would surface as an error value.
-/

namespace Foam

/-- Opaque handle returned by the SDK constructor (`TwitchPlayerInstance` in
the source).  `instId` is the identity of the live object; the remaining
fields are the values its getters currently report. -/
structure TwitchPlayerInstance where
  instId : Nat
  volume : Int
  muted : Bool
  currentTime : Int
  duration : Int
  channel : String
deriving DecidableEq, Repr

/-- Observable effects of running a closure from the source: calls on the SDK
instance, DOM writes, console output, and invocations of the host's optional
callback props. -/
inductive Effect where
  | instPlay (i : Nat)
  | instPause (i : Nat)
  | instSeek (i : Nat) (t : Int)
  | instSetVolume (i : Nat) (v : Int)
  | instSetMuted (i : Nat) (m : Bool)
  | instSetChannel (i : Nat) (c : String)
  | instSetVideo (i : Nat) (v : String) (t : Option Int)
  | instGetVolume (i : Nat)
  | instGetMuted (i : Nat)
  | instGetCurrentTime (i : Nat)
  | instGetDuration (i : Nat)
  | instGetChannel (i : Nat)
  | instDestroy (i : Nat)
  | instConstruct (i : Nat)
  | setInnerHTML (elemId : String)
  | consoleError
  | cbReady
  | cbPlay
  | cbPause
  | cbEnded
  | cbSeek (t : Int)
deriving DecidableEq, Repr

/-- A JavaScript runtime error: dereferencing a null reference. -/
inductive JsError where
  | nullDeref
deriving DecidableEq, Repr

/-- Reading a property off a possibly-null reference: throws on null. -/
def deref {α : Type} : Option α → Except JsError α
  | some a => Except.ok a
  | none => Except.error JsError.nullDeref

/-- The widget's mutable state: `playerRef`, the five `useState` hooks and the
idle-timer ref of the source, plus the runtime's pending-timer table
(`pendingTimers` holds (timer id, fire deadline) pairs, `nextTimerId` is the
runtime's timer-id counter) and two ghost histories used to state invariants:
`liveInstances` (ids of constructed, not yet destroyed SDK instances) and
`usedPlayerIds` (every container-element id ever generated). -/
structure WidgetState where
  player : Option TwitchPlayerInstance
  isLoading : Bool
  error : Option String
  isPlayerReady : Bool
  isPaused : Bool
  showControls : Bool
  hideControlsTimeoutRef : Option Nat
  pendingTimers : List (Nat × Nat)
  nextTimerId : Nat
  liveInstances : List Nat
  usedPlayerIds : List String
deriving DecidableEq, Repr

/-- State at mount: `useState(true)` for loading, `useState(null)` for error,
`useState(false)` for ready, `useState(true)` for paused, `useState(false)`
for controls, null refs, no pending timers, no instances ever created. -/
def initState : WidgetState :=
  { player := none
    isLoading := true
    error := none
    isPlayerReady := false
    isPaused := true
    showControls := false
    hideControlsTimeoutRef := none
    pendingTimers := []
    nextTimerId := 0
    liveInstances := []
    usedPlayerIds := [] }

/-- Which of the five optional callback props the host supplied. -/
structure Props where
  onReady : Bool
  onPlay : Bool
  onPause : Bool
  onEnded : Bool
  onSeek : Bool
deriving DecidableEq, Repr

namespace Facade

/-- Imperative handle `play`: `if (playerRef.current && isPlayerReady) playerRef.current.play()`. -/
def play (s : WidgetState) : Except JsError (WidgetState × List Effect) :=
  if s.player.isSome && s.isPlayerReady then do
    let p ← deref s.player
    Except.ok (s, [Effect.instPlay p.instId])
  else Except.ok (s, [])

/-- Imperative handle `pause`. -/
def pause (s : WidgetState) : Except JsError (WidgetState × List Effect) :=
  if s.player.isSome && s.isPlayerReady then do
    let p ← deref s.player
    Except.ok (s, [Effect.instPause p.instId])
  else Except.ok (s, [])

/-- Imperative handle `togglePlayPause`: delegates to play when the local
paused flag is set, to pause otherwise. -/
def togglePlayPause (s : WidgetState) : Except JsError (WidgetState × List Effect) :=
  if s.player.isSome && s.isPlayerReady then do
    let p ← deref s.player
    if s.isPaused then
      Except.ok (s, [Effect.instPlay p.instId])
    else
      Except.ok (s, [Effect.instPause p.instId])
  else Except.ok (s, [])

/-- Imperative handle `isPaused`: answers from the local state hook. -/
def isPaused (s : WidgetState) : Except JsError (Bool × List Effect) :=
  Except.ok (s.isPaused, [])

/-- Imperative handle `seek`. -/
def seek (timestamp : Int) (s : WidgetState) : Except JsError (WidgetState × List Effect) :=
  if s.player.isSome && s.isPlayerReady then do
    let p ← deref s.player
    Except.ok (s, [Effect.instSeek p.instId timestamp])
  else Except.ok (s, [])

/-- Imperative handle `setVolume`. -/
def setVolume (volume : Int) (s : WidgetState) : Except JsError (WidgetState × List Effect) :=
  if s.player.isSome && s.isPlayerReady then do
    let p ← deref s.player
    Except.ok (s, [Effect.instSetVolume p.instId volume])
  else Except.ok (s, [])

/-- Imperative handle `getVolume`: delegates when ready, else returns 0. -/
def getVolume (s : WidgetState) : Except JsError (Int × List Effect) :=
  if s.player.isSome && s.isPlayerReady then do
    let p ← deref s.player
    Except.ok (p.volume, [Effect.instGetVolume p.instId])
  else Except.ok (0, [])

/-- Imperative handle `setMuted`. -/
def setMuted (muted : Bool) (s : WidgetState) : Except JsError (WidgetState × List Effect) :=
  if s.player.isSome && s.isPlayerReady then do
    let p ← deref s.player
    Except.ok (s, [Effect.instSetMuted p.instId muted])
  else Except.ok (s, [])

/-- Imperative handle `getMuted`: delegates when ready, else returns false. -/
def getMuted (s : WidgetState) : Except JsError (Bool × List Effect) :=
  if s.player.isSome && s.isPlayerReady then do
    let p ← deref s.player
    Except.ok (p.muted, [Effect.instGetMuted p.instId])
  else Except.ok (false, [])

/-- Imperative handle `getCurrentTime`: delegates when ready, else returns 0. -/
def getCurrentTime (s : WidgetState) : Except JsError (Int × List Effect) :=
  if s.player.isSome && s.isPlayerReady then do
    let p ← deref s.player
    Except.ok (p.currentTime, [Effect.instGetCurrentTime p.instId])
  else Except.ok (0, [])

/-- Imperative handle `getDuration`: delegates when ready, else returns 0. -/
def getDuration (s : WidgetState) : Except JsError (Int × List Effect) :=
  if s.player.isSome && s.isPlayerReady then do
    let p ← deref s.player
    Except.ok (p.duration, [Effect.instGetDuration p.instId])
  else Except.ok (0, [])

/-- Imperative handle `getChannel`: delegates when ready, else returns "". -/
def getChannel (s : WidgetState) : Except JsError (String × List Effect) :=
  if s.player.isSome && s.isPlayerReady then do
    let p ← deref s.player
    Except.ok (p.channel, [Effect.instGetChannel p.instId])
  else Except.ok ("", [])

/-- Imperative handle `setChannel`. -/
def setChannel (channel : String) (s : WidgetState) : Except JsError (WidgetState × List Effect) :=
  if s.player.isSome && s.isPlayerReady then do
    let p ← deref s.player
    Except.ok (s, [Effect.instSetChannel p.instId channel])
  else Except.ok (s, [])

/-- Imperative handle `setVideo`. -/
def setVideo (videoId : String) (timestamp : Option Int) (s : WidgetState) :
    Except JsError (WidgetState × List Effect) :=
  if s.player.isSome && s.isPlayerReady then do
    let p ← deref s.player
    Except.ok (s, [Effect.instSetVideo p.instId videoId timestamp])
  else Except.ok (s, [])

/-- Imperative handle `isReady`: answers from the local state hook. -/
def isReady (s : WidgetState) : Except JsError (Bool × List Effect) :=
  Except.ok (s.isPlayerReady, [])

end Facade

/-- Container-element id generated by `loadTwitchPlayer`:
the template literal with the current clock reading. -/
def mkPlayerId (now : Nat) : String :=
  "twitch-player-" ++ toString now

/-- Source `clearHideTimeout`: if the timer ref is non-null, cancel that timer
in the runtime and null the ref. -/
def clearHideTimeout (s : WidgetState) : WidgetState :=
  match s.hideControlsTimeoutRef with
  | some i =>
      { s with pendingTimers := s.pendingTimers.filter (fun t => t.1 != i)
               hideControlsTimeoutRef := none }
  | none => s

/-- Source `handleMouseActivity` run at clock time `t`: show the controls,
cancel any pending hide timer, then arm a fresh 3000 ms timer and store its
id in the ref. -/
def handleMouseActivity (t : Nat) (s : WidgetState) : WidgetState :=
  let s1 := clearHideTimeout { s with showControls := true }
  { s1 with hideControlsTimeoutRef := some s1.nextTimerId
            pendingTimers := s1.pendingTimers ++ [(s1.nextTimerId, t + 3000)]
            nextTimerId := s1.nextTimerId + 1 }

/-- Source `handleMouseLeave`: hide the controls and cancel the pending hide
timer. -/
def handleMouseLeave (s : WidgetState) : WidgetState :=
  clearHideTimeout { s with showControls := false }

/-- The runtime fires pending timer `i` at its deadline `d`: if such a timer
is pending it is consumed and its callback runs — the callback from
`handleMouseActivity` hides the controls and nulls the ref. -/
def fireHideTimer (i d : Nat) (s : WidgetState) : WidgetState :=
  if (i, d) ∈ s.pendingTimers then
    { s with pendingTimers := s.pendingTimers.filter (fun t => t.1 != i)
             showControls := false
             hideControlsTimeoutRef := none }
  else s

/-- SDK "ready" listener: stop the spinner, clear the error, mark ready,
mark unpaused, invoke the host's optional onReady. -/
def readyHandler (pr : Props) (s : WidgetState) : WidgetState × List Effect :=
  ({ s with isLoading := false, error := none, isPlayerReady := true, isPaused := false },
   if pr.onReady then [Effect.cbReady] else [])

/-- SDK "play" listener: mark unpaused, invoke the optional onPlay. -/
def playHandler (pr : Props) (s : WidgetState) : WidgetState × List Effect :=
  ({ s with isPaused := false }, if pr.onPlay then [Effect.cbPlay] else [])

/-- SDK "pause" listener: mark paused, invoke the optional onPause. -/
def pauseHandler (pr : Props) (s : WidgetState) : WidgetState × List Effect :=
  ({ s with isPaused := true }, if pr.onPause then [Effect.cbPause] else [])

/-- SDK "ended" listener: mark paused, invoke the optional onEnded. -/
def endedHandler (pr : Props) (s : WidgetState) : WidgetState × List Effect :=
  ({ s with isPaused := true }, if pr.onEnded then [Effect.cbEnded] else [])

/-- SDK "seek" listener: read the captured instance's current time and invoke
the optional onSeek with it; the widget state is untouched. -/
def seekHandler (pr : Props) (p : TwitchPlayerInstance) (s : WidgetState) :
    WidgetState × List Effect :=
  (s, Effect.instGetCurrentTime p.instId ::
      (if pr.onSeek then [Effect.cbSeek p.currentTime] else []))

/-- Source `loadTwitchPlayer`.  `containerPresent` is the truthiness of
`containerRef.current`; `now` is the clock reading used for the container id;
`ctor` is the SDK constructor's outcome — `some p` when it returns the
instance `p`, `none` when it throws.  Steps, as in the source: early return on
a missing container; destroy and null any existing instance and clear the
ready flag; write a fresh child div with the generated id; then try to
construct — on success store the instance in the ref, on a throw set the
error text, stop the spinner and clear the ready flag. -/
def loadTwitchPlayer (containerPresent : Bool) (now : Nat)
    (ctor : Option TwitchPlayerInstance) (s : WidgetState) :
    WidgetState × List Effect :=
  if !containerPresent then (s, [])
  else
    let cleared :=
      match s.player with
      | some p =>
          ({ s with player := none
                    isPlayerReady := false
                    liveInstances := s.liveInstances.filter (fun j => j != p.instId) },
           [Effect.instDestroy p.instId])
      | none => (s, [])
    let s1 := cleared.1
    let playerId := mkPlayerId now
    let s2 := { s1 with usedPlayerIds := s1.usedPlayerIds ++ [playerId] }
    let eff2 := cleared.2 ++ [Effect.setInnerHTML playerId]
    match ctor with
    | some p =>
        ({ s2 with player := some p
                   liveInstances := s2.liveInstances ++ [p.instId] },
         eff2 ++ [Effect.instConstruct p.instId])
    | none =>
        ({ s2 with error := some "Failed to initialize Twitch player"
                   isLoading := false
                   isPlayerReady := false },
         eff2 ++ [Effect.consoleError])

/-- The script element's onerror handler: record the load failure, stop the
spinner, clear the ready flag. -/
def scriptOnError (s : WidgetState) : WidgetState :=
  { s with error := some "Failed to load Twitch embed script"
           isLoading := false
           isPlayerReady := false }

/-- The effect cleanup returned by the `useEffect`: cancel the idle timer,
then destroy and null any live instance and clear the ready flag. -/
def effectCleanup (s : WidgetState) : WidgetState × List Effect :=
  let s0 := clearHideTimeout s
  match s0.player with
  | some p =>
      ({ s0 with player := none
                 isPlayerReady := false
                 liveInstances := s0.liveInstances.filter (fun j => j != p.instId) },
       [Effect.instDestroy p.instId])
  | none => (s0, [])

/-- One externally-triggered step of the widget: an effect run's
`loadTwitchPlayer` call, the effect cleanup, delivery of an SDK event to the
attached listeners, the script element's onerror, a pointer event, or the
runtime firing a pending idle timer. -/
inductive Op where
  | load (containerPresent : Bool) (now : Nat) (ctor : Option TwitchPlayerInstance)
  | cleanup
  | evReady
  | evPlay
  | evPause
  | evEnded
  | evSeek
  | scriptError
  | mouseActivity (t : Nat)
  | mouseLeave
  | timerFire (i d : Nat)
deriving DecidableEq, Repr

/-- Interpretation of one step on the widget state, with its effect trace. -/
def stepOp (pr : Props) (op : Op) (s : WidgetState) : WidgetState × List Effect :=
  match op with
  | Op.load cp now ctor => loadTwitchPlayer cp now ctor s
  | Op.cleanup => effectCleanup s
  | Op.evReady => readyHandler pr s
  | Op.evPlay => playHandler pr s
  | Op.evPause => pauseHandler pr s
  | Op.evEnded => endedHandler pr s
  | Op.evSeek =>
      match s.player with
      | some p => seekHandler pr p s
      | none => (s, [])
  | Op.scriptError => (scriptOnError s, [])
  | Op.mouseActivity t => (handleMouseActivity t s, [])
  | Op.mouseLeave => (handleMouseLeave s, [])
  | Op.timerFire i d => (fireHideTimer i d s, [])

/-- Run a sequence of steps, concatenating the effect traces. -/
def runOps (pr : Props) (ops : List Op) (s : WidgetState) : WidgetState × List Effect :=
  match ops with
  | [] => (s, [])
  | op :: rest =>
      let r1 := stepOp pr op s
      let r2 := runOps pr rest r1.1
      (r2.1, r1.2 ++ r2.2)

/-- What the component function renders. -/
inductive Surface where
  | errorSurface (msg : String)
  | playerSurface (spinner : Bool) (controlsMounted : Bool)
deriving DecidableEq, Repr

/-- The render body: a non-null error short-circuits to the error container;
otherwise the player container renders, with the loading overlay iff
`isLoading` and the controls overlay mounted iff `isPlayerReady`. -/
def render (s : WidgetState) : Surface :=
  match s.error with
  | some e => Surface.errorSurface e
  | none => Surface.playerSurface s.isLoading s.isPlayerReady

/-- Page-level state of the script loader: whether `window.Twitch` is set,
how many injected script elements have not yet settled, and how many script
elements were ever appended. -/
structure PageState where
  twitchPresent : Bool
  pendingScripts : Nat
  injected : Nat
deriving DecidableEq, Repr

/-- Observable actions of the script loader. -/
inductive PageEff where
  | appendScript
  | runLoadSync
  | runScriptOnError
deriving DecidableEq, Repr

/-- One run of the `useEffect` body, loader part only: if `window.Twitch` is
absent, append a script element with load and error handlers; otherwise call
`loadTwitchPlayer` synchronously in the same tick. -/
def effectRun (pg : PageState) : PageState × List PageEff :=
  if !pg.twitchPresent then
    ({ pg with pendingScripts := pg.pendingScripts + 1, injected := pg.injected + 1 },
     [PageEff.appendScript])
  else (pg, [PageEff.runLoadSync])

/-- One injected script element settles, exactly once, with outcome `ok`: on
load the SDK global appears and the onload handler runs `loadTwitchPlayer`;
on error the onerror handler runs. -/
def scriptSettle (ok : Bool) (pg : PageState) : PageState × List PageEff :=
  if pg.pendingScripts = 0 then (pg, [])
  else if ok then
    ({ pg with pendingScripts := pg.pendingScripts - 1, twitchPresent := true },
     [PageEff.runLoadSync])
  else
    ({ pg with pendingScripts := pg.pendingScripts - 1 },
     [PageEff.runScriptOnError])

/-- A page-level step: an effect run or a script settling. -/
inductive PageOp where
  | run
  | settle (ok : Bool)
deriving DecidableEq, Repr

/-- Interpretation of one page-level step. -/
def pageStep (op : PageOp) (pg : PageState) : PageState × List PageEff :=
  match op with
  | PageOp.run => effectRun pg
  | PageOp.settle ok => scriptSettle ok pg

/-- Run a sequence of page-level steps. -/
def runPage (ops : List PageOp) (pg : PageState) : PageState × List PageEff :=
  match ops with
  | [] => (pg, [])
  | op :: rest =>
      let r1 := pageStep op pg
      let r2 := runPage rest r1.1
      (r2.1, r1.2 ++ r2.2)

/-- A fresh page before any mount: no SDK global, no scripts. -/
def initPage : PageState :=
  { twitchPresent := false, pendingScripts := 0, injected := 0 }

/-- Ownership invariant: the ref and the set of live SDK instances agree, and
that set is empty or a singleton. -/
def InstInv (s : WidgetState) : Prop :=
  (s.player = none ∧ s.liveInstances = []) ∨
    ∃ p, s.player = some p ∧ s.liveInstances = [p.instId]

/-- Timer invariant: the idle-timer ref and the runtime's pending-timer table
agree, and at most one timer is pending. -/
def TimerInv (s : WidgetState) : Prop :=
  (s.hideControlsTimeoutRef = none ∧ s.pendingTimers = []) ∨
    ∃ i d, s.hideControlsTimeoutRef = some i ∧ s.pendingTimers = [(i, d)]

/-- Error invariant: an error being recorded excludes the ready flag. -/
def ErrInv (s : WidgetState) : Prop :=
  s.error.isSome → s.isPlayerReady = false

/-- Conjunction of the widget invariants. -/
def Inv (s : WidgetState) : Prop := InstInv s ∧ TimerInv s ∧ ErrInv s

/-- Clock readings of the steps that actually generate a container id: the
`loadTwitchPlayer` calls that do not take the missing-container early
return. -/
def loadClocks : List Op → List Nat
  | [] => []
  | Op.load true n _ :: rest => n :: loadClocks rest
  | _ :: rest => loadClocks rest

/-- Decode a list of decimal digit characters back to the number they denote. -/
def ofDigitChars : List Char → Nat
  | [] => 0
  | c :: cs => (c.toNat - 48) * 10 ^ cs.length + ofDigitChars cs

lemma clearHideTimeout_player (s : WidgetState) :
    (clearHideTimeout s).player = s.player := by
  unfold clearHideTimeout; split <;> rfl

lemma clearHideTimeout_liveInstances (s : WidgetState) :
    (clearHideTimeout s).liveInstances = s.liveInstances := by
  unfold clearHideTimeout; split <;> rfl

lemma clearHideTimeout_error (s : WidgetState) :
    (clearHideTimeout s).error = s.error := by
  unfold clearHideTimeout; split <;> rfl

lemma clearHideTimeout_isPlayerReady (s : WidgetState) :
    (clearHideTimeout s).isPlayerReady = s.isPlayerReady := by
  unfold clearHideTimeout; split <;> rfl

lemma clearHideTimeout_isLoading (s : WidgetState) :
    (clearHideTimeout s).isLoading = s.isLoading := by
  unfold clearHideTimeout; split <;> rfl

lemma clearHideTimeout_isPaused (s : WidgetState) :
    (clearHideTimeout s).isPaused = s.isPaused := by
  unfold clearHideTimeout; split <;> rfl

lemma clearHideTimeout_showControls (s : WidgetState) :
    (clearHideTimeout s).showControls = s.showControls := by
  unfold clearHideTimeout; split <;> rfl

lemma clearHideTimeout_usedPlayerIds (s : WidgetState) :
    (clearHideTimeout s).usedPlayerIds = s.usedPlayerIds := by
  unfold clearHideTimeout; split <;> rfl

lemma clearHideTimeout_clears (s : WidgetState) (ht : TimerInv s) :
    (clearHideTimeout s).hideControlsTimeoutRef = none ∧
      (clearHideTimeout s).pendingTimers = [] := by
  rcases ht with ⟨h1, h2⟩ | ⟨i, d, h1, h2⟩ <;>
    simp [clearHideTimeout, h1, h2, List.filter]

lemma instInv_stepOp (pr : Props) (op : Op) (s : WidgetState) (hi : InstInv s) :
    InstInv (stepOp pr op s).1 := by
  cases op with
  | load cp now ctor =>
      cases cp with
      | false => exact hi
      | true =>
          rcases hi with ⟨hp, hl⟩ | ⟨p, hp, hl⟩ <;> cases ctor <;>
            simp [stepOp, loadTwitchPlayer, InstInv, hp, hl, List.filter]
  | cleanup =>
      rcases hi with ⟨hp, hl⟩ | ⟨p, hp, hl⟩ <;>
        simp [stepOp, effectCleanup, InstInv, clearHideTimeout_player,
          clearHideTimeout_liveInstances, hp, hl, List.filter]
  | evReady => simpa [stepOp, readyHandler, InstInv] using hi
  | evPlay => simpa [stepOp, playHandler, InstInv] using hi
  | evPause => simpa [stepOp, pauseHandler, InstInv] using hi
  | evEnded => simpa [stepOp, endedHandler, InstInv] using hi
  | evSeek =>
      cases h : s.player <;> simpa [stepOp, seekHandler, h] using hi
  | scriptError => simpa [stepOp, scriptOnError, InstInv] using hi
  | mouseActivity t =>
      simpa [stepOp, handleMouseActivity, InstInv, clearHideTimeout_player,
        clearHideTimeout_liveInstances] using hi
  | mouseLeave =>
      simpa [stepOp, handleMouseLeave, InstInv, clearHideTimeout_player,
        clearHideTimeout_liveInstances] using hi
  | timerFire i d =>
      by_cases h : (i, d) ∈ s.pendingTimers <;>
        simpa [stepOp, fireHideTimer, InstInv, h] using hi

lemma timerInv_stepOp (pr : Props) (op : Op) (s : WidgetState) (ht : TimerInv s) :
    TimerInv (stepOp pr op s).1 := by
  cases op with
  | load cp now ctor =>
      cases cp with
      | false => exact ht
      | true =>
          cases hp : s.player <;> cases ctor <;>
            simpa [stepOp, loadTwitchPlayer, TimerInv, hp] using ht
  | cleanup =>
      have hc := clearHideTimeout_clears s ht
      cases h : (clearHideTimeout s).player <;>
        simp [stepOp, effectCleanup, TimerInv, h, hc.1, hc.2]
  | evReady => simpa [stepOp, readyHandler, TimerInv] using ht
  | evPlay => simpa [stepOp, playHandler, TimerInv] using ht
  | evPause => simpa [stepOp, pauseHandler, TimerInv] using ht
  | evEnded => simpa [stepOp, endedHandler, TimerInv] using ht
  | evSeek =>
      cases h : s.player <;> simpa [stepOp, seekHandler, h] using ht
  | scriptError => simpa [stepOp, scriptOnError, TimerInv] using ht
  | mouseActivity t =>
      have hc := clearHideTimeout_clears { s with showControls := true }
        (by rcases ht with ⟨h1, h2⟩ | ⟨i, d, h1, h2⟩
            · exact Or.inl ⟨h1, h2⟩
            · exact Or.inr ⟨i, d, h1, h2⟩)
      right
      exact ⟨(clearHideTimeout { s with showControls := true }).nextTimerId,
        t + 3000, by simp [stepOp, handleMouseActivity],
        by simp [stepOp, handleMouseActivity, hc.2]⟩
  | mouseLeave =>
      have hc := clearHideTimeout_clears { s with showControls := false }
        (by rcases ht with ⟨h1, h2⟩ | ⟨i, d, h1, h2⟩
            · exact Or.inl ⟨h1, h2⟩
            · exact Or.inr ⟨i, d, h1, h2⟩)
      exact Or.inl (by simpa [stepOp, handleMouseLeave] using hc)
  | timerFire i d =>
      by_cases h : (i, d) ∈ s.pendingTimers
      · rcases ht with ⟨h1, h2⟩ | ⟨j, e, h1, h2⟩
        · simp [h2] at h
        · have hij : i = j ∧ d = e := by
            rw [h2] at h; simpa [Prod.ext_iff] using h
          obtain ⟨hij1, hij2⟩ := hij
          subst hij1; subst hij2
          left
          simp [stepOp, fireHideTimer, h, h2, List.filter]
      · simpa [stepOp, fireHideTimer, h] using ht

lemma errInv_stepOp (pr : Props) (op : Op) (s : WidgetState) (he : ErrInv s) :
    ErrInv (stepOp pr op s).1 := by
  cases op with
  | load cp now ctor =>
      cases cp with
      | false => exact he
      | true =>
          cases hp : s.player <;> cases ctor <;>
            simp [stepOp, loadTwitchPlayer, ErrInv, hp] <;>
            intro hx <;> exact he (by simpa using hx)
  | cleanup =>
      cases h : (clearHideTimeout s).player <;>
        simp [stepOp, effectCleanup, ErrInv, h, clearHideTimeout_error,
          clearHideTimeout_isPlayerReady] <;>
        intro hx <;>
        exact he (by simpa [clearHideTimeout_error] using hx)
  | evReady => simp [stepOp, readyHandler, ErrInv]
  | evPlay => simpa [stepOp, playHandler, ErrInv] using he
  | evPause => simpa [stepOp, pauseHandler, ErrInv] using he
  | evEnded => simpa [stepOp, endedHandler, ErrInv] using he
  | evSeek =>
      cases h : s.player <;> simpa [stepOp, seekHandler, h] using he
  | scriptError => simp [stepOp, scriptOnError, ErrInv]
  | mouseActivity t =>
      simpa [stepOp, handleMouseActivity, ErrInv, clearHideTimeout_error,
        clearHideTimeout_isPlayerReady] using he
  | mouseLeave =>
      simpa [stepOp, handleMouseLeave, ErrInv, clearHideTimeout_error,
        clearHideTimeout_isPlayerReady] using he
  | timerFire i d =>
      by_cases h : (i, d) ∈ s.pendingTimers <;>
        simpa [stepOp, fireHideTimer, ErrInv, h] using he

lemma inv_stepOp (pr : Props) (op : Op) (s : WidgetState) (h : Inv s) :
    Inv (stepOp pr op s).1 :=
  ⟨instInv_stepOp pr op s h.1, timerInv_stepOp pr op s h.2.1,
    errInv_stepOp pr op s h.2.2⟩

lemma inv_initState : Inv initState := by
  refine ⟨Or.inl ⟨rfl, rfl⟩, Or.inl ⟨rfl, rfl⟩, ?_⟩
  intro h
  simp [initState] at h

lemma inv_runOps (pr : Props) (ops : List Op) :
    ∀ s : WidgetState, Inv s → Inv (runOps pr ops s).1 := by
  induction ops with
  | nil => intro s h; exact h
  | cons op rest ih =>
      intro s h
      exact ih (stepOp pr op s).1 (inv_stepOp pr op s h)

lemma stepOp_usedPlayerIds (pr : Props) (op : Op) (s : WidgetState) :
    (stepOp pr op s).1.usedPlayerIds =
      s.usedPlayerIds ++ (loadClocks [op]).map mkPlayerId := by
  cases op with
  | load cp now ctor =>
      cases cp with
      | false => simp [stepOp, loadTwitchPlayer, loadClocks]
      | true =>
          cases hp : s.player <;> cases ctor <;>
            simp [stepOp, loadTwitchPlayer, loadClocks, hp]
  | cleanup =>
      cases h : (clearHideTimeout s).player <;>
        simp [stepOp, effectCleanup, loadClocks, h, clearHideTimeout_usedPlayerIds]
  | evReady => simp [stepOp, readyHandler, loadClocks]
  | evPlay => simp [stepOp, playHandler, loadClocks]
  | evPause => simp [stepOp, pauseHandler, loadClocks]
  | evEnded => simp [stepOp, endedHandler, loadClocks]
  | evSeek => cases h : s.player <;> simp [stepOp, seekHandler, loadClocks, h]
  | scriptError => simp [stepOp, scriptOnError, loadClocks]
  | mouseActivity t =>
      simp [stepOp, handleMouseActivity, loadClocks, clearHideTimeout_usedPlayerIds]
  | mouseLeave =>
      simp [stepOp, handleMouseLeave, loadClocks, clearHideTimeout_usedPlayerIds]
  | timerFire i d =>
      by_cases h : (i, d) ∈ s.pendingTimers <;> simp [stepOp, fireHideTimer, loadClocks, h]

lemma loadClocks_cons (op : Op) (rest : List Op) :
    loadClocks (op :: rest) = loadClocks [op] ++ loadClocks rest := by
  cases op with
  | load cp now ctor => cases cp <;> simp [loadClocks]
  | cleanup => simp [loadClocks]
  | evReady => simp [loadClocks]
  | evPlay => simp [loadClocks]
  | evPause => simp [loadClocks]
  | evEnded => simp [loadClocks]
  | evSeek => simp [loadClocks]
  | scriptError => simp [loadClocks]
  | mouseActivity t => simp [loadClocks]
  | mouseLeave => simp [loadClocks]
  | timerFire i d => simp [loadClocks]

lemma runOps_usedPlayerIds (pr : Props) (ops : List Op) :
    ∀ s : WidgetState, (runOps pr ops s).1.usedPlayerIds =
      s.usedPlayerIds ++ (loadClocks ops).map mkPlayerId := by
  induction ops with
  | nil => intro s; simp [runOps, loadClocks]
  | cons op rest ih =>
      intro s
      show (runOps pr rest (stepOp pr op s).1).1.usedPlayerIds = _
      rw [ih, stepOp_usedPlayerIds, loadClocks_cons op rest]
      simp [List.append_assoc]

lemma digitChar_decode (k : Nat) (hk : k < 10) : (Nat.digitChar k).toNat - 48 = k := by
  interval_cases k <;> decide

lemma ofDigitChars_toDigitsCore (fuel : Nat) :
    ∀ (n : Nat) (ds : List Char), n < fuel →
      ofDigitChars (Nat.toDigitsCore 10 fuel n ds) =
        n * 10 ^ ds.length + ofDigitChars ds := by
  induction fuel with
  | zero => intro n ds h; omega
  | succ f ih =>
      intro n ds h
      rw [Nat.toDigitsCore]
      by_cases h0 : n / 10 = 0
      · have hn : n < 10 := by omega
        simp only [h0, if_true, ofDigitChars]
        rw [digitChar_decode (n % 10) (Nat.mod_lt n (by norm_num)),
          Nat.mod_eq_of_lt hn]
      · have hlt : n / 10 < f := by
          have h1 : n / 10 < n := Nat.div_lt_self (by omega) (by norm_num)
          omega
        simp only [h0, if_false]
        rw [ih (n / 10) (Nat.digitChar (n % 10) :: ds) hlt]
        have hdecode : (Nat.digitChar (n % 10)).toNat - 48 = n % 10 :=
          digitChar_decode (n % 10) (Nat.mod_lt n (by omega))
        simp only [ofDigitChars, List.length_cons, hdecode, pow_succ]
        have hsplit : n = 10 * (n / 10) + n % 10 := (Nat.div_add_mod n 10).symm
        calc n / 10 * (10 ^ ds.length * 10) +
              (n % 10 * 10 ^ ds.length + ofDigitChars ds)
            = (10 * (n / 10) + n % 10) * 10 ^ ds.length + ofDigitChars ds := by ring
          _ = n * 10 ^ ds.length + ofDigitChars ds := by rw [← hsplit]

lemma ofDigitChars_toDigits (n : Nat) : ofDigitChars (Nat.toDigits 10 n) = n := by
  have h := ofDigitChars_toDigitsCore (n + 1) n [] (Nat.lt_succ_self n)
  simpa [Nat.toDigits, ofDigitChars] using h

lemma natRepr_injective : Function.Injective Nat.repr := by
  intro a b h
  have hdata : Nat.toDigits 10 a = Nat.toDigits 10 b := by
    have h2 := congrArg String.data h
    simpa [Nat.repr, List.asString] using h2
  calc a = ofDigitChars (Nat.toDigits 10 a) := (ofDigitChars_toDigits a).symm
    _ = ofDigitChars (Nat.toDigits 10 b) := by rw [hdata]
    _ = b := ofDigitChars_toDigits b

lemma toString_nat_eq_repr (n : Nat) : toString n = Nat.repr n := rfl

lemma mkPlayerId_injective : Function.Injective mkPlayerId := by
  intro a b h
  have hdata := congrArg String.data h
  simp only [mkPlayerId, toString_nat_eq_repr, String.data_append] at hdata
  have hrepr : (Nat.repr a).data = (Nat.repr b).data :=
    List.append_cancel_left hdata
  have hstr : Nat.repr a = Nat.repr b := by
    cases hra : Nat.repr a with
    | mk la =>
        cases hrb : Nat.repr b with
        | mk lb =>
            rw [hra, hrb] at hrepr
            simp only [] at hrepr
            exact congrArg String.mk (by simpa using hrepr)
  exact natRepr_injective hstr

lemma runPage_fst_cons (op : PageOp) (rest : List PageOp) (pg : PageState) :
    (runPage (op :: rest) pg).1 = (runPage rest (pageStep op pg).1).1 := rfl

lemma runPage_no_inject_when_present (ops : List PageOp) :
    ∀ pg : PageState, pg.twitchPresent = true →
      (runPage ops pg).1.injected = pg.injected ∧
        (runPage ops pg).1.twitchPresent = true := by
  induction ops with
  | nil => intro pg h; exact ⟨rfl, h⟩
  | cons op rest ih =>
      intro pg h
      rw [runPage_fst_cons]
      cases op with
      | run =>
          have hr : (pageStep PageOp.run pg).1 = pg := by
            simp [pageStep, effectRun, h]
          rw [hr]
          exact ih pg h
      | settle ok =>
          by_cases h0 : pg.pendingScripts = 0
          · have hr : (pageStep (PageOp.settle ok) pg).1 = pg := by
              simp [pageStep, scriptSettle, h0]
            rw [hr]
            exact ih pg h
          · cases ok with
            | true =>
                have hr : (pageStep (PageOp.settle true) pg).1 =
                    { pg with pendingScripts := pg.pendingScripts - 1,
                              twitchPresent := true } := by
                  simp [pageStep, scriptSettle, h0]
                rw [hr]
                exact ih _ rfl
            | false =>
                have hr : (pageStep (PageOp.settle false) pg).1 =
                    { pg with pendingScripts := pg.pendingScripts - 1 } := by
                  simp [pageStep, scriptSettle, h0]
                rw [hr]
                exact ih _ h

/-- C1: every facade mutator — play, pause, togglePlayPause, seek, setVolume,
setMuted, setChannel, setVideo — called while the player instance is absent
or the ready flag is down returns without an error, leaves the widget state
unchanged and performs no call on the instance. -/
theorem facade_mutators_silent_when_not_ready (s : WidgetState)
    (h : s.player = none ∨ s.isPlayerReady = false) :
    Facade.play s = Except.ok (s, []) ∧
    Facade.pause s = Except.ok (s, []) ∧
    Facade.togglePlayPause s = Except.ok (s, []) ∧
    (∀ t : Int, Facade.seek t s = Except.ok (s, [])) ∧
    (∀ v : Int, Facade.setVolume v s = Except.ok (s, [])) ∧
    (∀ m : Bool, Facade.setMuted m s = Except.ok (s, [])) ∧
    (∀ c : String, Facade.setChannel c s = Except.ok (s, [])) ∧
    (∀ (v : String) (t : Option Int), Facade.setVideo v t s = Except.ok (s, [])) := by
  have hg : (s.player.isSome && s.isPlayerReady) = false := by
    rcases h with h | h <;> simp [h]
  refine ⟨?_, ?_, ?_, ?_, ?_, ?_, ?_, ?_⟩ <;>
    simp [Facade.play, Facade.pause, Facade.togglePlayPause, Facade.seek,
      Facade.setVolume, Facade.setMuted, Facade.setChannel, Facade.setVideo, hg]

/-- Witness for C1 at the freshly mounted state. -/
theorem facade_mutators_silent_when_not_ready_witness :
    Facade.play initState = Except.ok (initState, []) ∧
    Facade.seek 42 initState = Except.ok (initState, []) := by
  have h := facade_mutators_silent_when_not_ready initState (Or.inl rfl)
  exact ⟨h.1, h.2.2.2.1 42⟩

/-- C2: every facade accessor called while the instance is absent or the
ready flag is down returns its documented typed default without an error and
without touching the instance — 0 for getVolume, getCurrentTime and
getDuration, the empty string for getChannel, false for getMuted — and
isPaused and isReady always answer from the local state with no instance
call at all. -/
theorem facade_accessors_default_when_not_ready (s : WidgetState)
    (h : s.player = none ∨ s.isPlayerReady = false) :
    Facade.getVolume s = Except.ok (0, []) ∧
    Facade.getCurrentTime s = Except.ok (0, []) ∧
    Facade.getDuration s = Except.ok (0, []) ∧
    Facade.getChannel s = Except.ok ("", []) ∧
    Facade.getMuted s = Except.ok (false, []) ∧
    (∀ s2 : WidgetState, Facade.isPaused s2 = Except.ok (s2.isPaused, [])) ∧
    (∀ s2 : WidgetState, Facade.isReady s2 = Except.ok (s2.isPlayerReady, [])) := by
  have hg : (s.player.isSome && s.isPlayerReady) = false := by
    rcases h with h | h <;> simp [h]
  refine ⟨?_, ?_, ?_, ?_, ?_, fun s2 => rfl, fun s2 => rfl⟩ <;>
    simp [Facade.getVolume, Facade.getCurrentTime, Facade.getDuration,
      Facade.getChannel, Facade.getMuted, hg]

/-- Witness for C2 at the freshly mounted state. -/
theorem facade_accessors_default_when_not_ready_witness :
    Facade.getVolume initState = Except.ok (0, []) ∧
    Facade.getChannel initState = Except.ok ("", []) := by
  have h := facade_accessors_default_when_not_ready initState (Or.inl rfl)
  exact ⟨h.1, h.2.2.2.1⟩

/-- C3: starting from the mounted widget, any sequence of lifecycle steps
leaves at most one live SDK instance; a reload that finds an existing
instance emits its destruction strictly before the construction of the
replacement (with the ownership reference already cleared in between); and
the effect cleanup destroys exactly the live instance and clears the
reference. -/
theorem at_most_one_live_instance
    (pr : Props) (ops : List Op) (now : Nat)
    (ctor : Option TwitchPlayerInstance) (s : WidgetState)
    (p : TwitchPlayerInstance) (hp : s.player = some p) :
    ((runOps pr ops initState).1.liveInstances).length ≤ 1 ∧
    (loadTwitchPlayer true now ctor s).2 =
      Effect.instDestroy p.instId :: Effect.setInnerHTML (mkPlayerId now) ::
        (match ctor with
         | some q => [Effect.instConstruct q.instId]
         | none => [Effect.consoleError]) ∧
    (effectCleanup s).2 = [Effect.instDestroy p.instId] ∧
    (effectCleanup s).1.player = none := by
  refine ⟨?_, ?_, ?_, ?_⟩
  · rcases (inv_runOps pr ops initState inv_initState).1 with ⟨h1, h2⟩ | ⟨q, h1, h2⟩ <;>
      simp [h2]
  · cases ctor <;> simp [loadTwitchPlayer, hp]
  · have hcp : (clearHideTimeout s).player = some p := by
      rw [clearHideTimeout_player, hp]
    simp [effectCleanup, hcp]
  · have hcp : (clearHideTimeout s).player = some p := by
      rw [clearHideTimeout_player, hp]
    simp [effectCleanup, hcp]

/-- Witness for C3 with a live instance present. -/
theorem at_most_one_live_instance_witness :
    (effectCleanup { initState with player := some ⟨0, 0, false, 0, 0, ""⟩ }).2 =
      [Effect.instDestroy 0] :=
  (at_most_one_live_instance ⟨true, true, true, true, true⟩
    [Op.load true 1 (some ⟨0, 0, false, 0, 0, ""⟩), Op.cleanup] 1 none
    { initState with player := some ⟨0, 0, false, 0, 0, ""⟩ }
    ⟨0, 0, false, 0, 0, ""⟩ rfl).2.2.1

/-- C4 as stated is false on the code: reloading over a live, ready,
playing widget leaves the loading flag down and the paused flag down — the
controller never resets them to the claimed Loading / paused=true before
constructing the replacement (only the ready flag is cleared). -/
theorem reload_does_not_reset_loading_or_paused :
    (loadTwitchPlayer true 5 (some ⟨1, 0, false, 0, 0, ""⟩)
        { initState with
            player := some ⟨0, 0, false, 0, 0, ""⟩
            isLoading := false
            isPlayerReady := true
            isPaused := false }).1.isPaused
      = false ∧
    (loadTwitchPlayer true 5 (some ⟨1, 0, false, 0, 0, ""⟩)
        { initState with
            player := some ⟨0, 0, false, 0, 0, ""⟩
            isLoading := false
            isPlayerReady := true
            isPaused := false }).1.isLoading
      = false := by
  exact ⟨rfl, rfl⟩

/-- C4 amended: a configuration change over an existing instance destroys the
old instance first and clears the ready flag before the replacement is
constructed, but it leaves the loading flag and the paused flag at their
prior values — it does not reset them to Loading / paused=true. -/
theorem reload_destroys_then_clears_ready (now : Nat)
    (q p : TwitchPlayerInstance) (s : WidgetState) (hp : s.player = some p) :
    (loadTwitchPlayer true now (some q) s).2 =
      [Effect.instDestroy p.instId, Effect.setInnerHTML (mkPlayerId now),
        Effect.instConstruct q.instId] ∧
    (loadTwitchPlayer true now (some q) s).1.isPlayerReady = false ∧
    (loadTwitchPlayer true now (some q) s).1.isPaused = s.isPaused ∧
    (loadTwitchPlayer true now (some q) s).1.isLoading = s.isLoading := by
  refine ⟨?_, ?_, ?_, ?_⟩ <;> simp [loadTwitchPlayer, hp]

/-- Witness for the amended C4 on a concrete ready state. -/
theorem reload_destroys_then_clears_ready_witness :
    (loadTwitchPlayer true 9 (some ⟨1, 0, false, 0, 0, ""⟩)
        { initState with player := some ⟨0, 0, false, 0, 0, ""⟩ }).1.isPlayerReady
      = false :=
  (reload_destroys_then_clears_ready 9 ⟨1, 0, false, 0, 0, ""⟩ ⟨0, 0, false, 0, 0, ""⟩
    { initState with player := some ⟨0, 0, false, 0, 0, ""⟩ } rfl).2.1

/-- C5 as stated is false on the code: two reloads during the same
millisecond (equal clock readings) generate the same container id, so the id
history of the widget contains a duplicate. -/
theorem same_millisecond_ids_collide :
    ¬ ((runOps ⟨true, true, true, true, true⟩
        [Op.load true 7 (some ⟨0, 0, false, 0, 0, ""⟩),
         Op.load true 7 (some ⟨1, 0, false, 0, 0, ""⟩)]
        initState).1.usedPlayerIds).Nodup := by
  decide

/-- C5 amended: the generated container id is injective in the clock
reading, so the ids of a run are pairwise distinct exactly when its clock
readings are; in particular every sequence of creations with pairwise
distinct clock readings yields pairwise distinct ids, while creations in
the same millisecond repeat an id. -/
theorem player_ids_fresh_iff_clock_fresh :
    (∀ a b : Nat, mkPlayerId a = mkPlayerId b → a = b) ∧
    (∀ (pr : Props) (ops : List Op), (loadClocks ops).Nodup →
      ((runOps pr ops initState).1.usedPlayerIds).Nodup) := by
  refine ⟨fun a b h => mkPlayerId_injective h, ?_⟩
  intro pr ops h
  rw [runOps_usedPlayerIds]
  simp only [initState, List.nil_append]
  exact h.map mkPlayerId_injective

/-- Witness for the amended C5 on two loads with advancing clock. -/
theorem player_ids_fresh_iff_clock_fresh_witness :
    ((runOps ⟨true, true, true, true, true⟩
        [Op.load true 1 none, Op.load true 2 none]
        initState).1.usedPlayerIds).Nodup :=
  player_ids_fresh_iff_clock_fresh.2 ⟨true, true, true, true, true⟩
    [Op.load true 1 none, Op.load true 2 none] (by decide)

/-- C6: the SDK event bridge — a ready event stops the spinner, clears the
error, raises the ready flag, lowers the paused flag and fires onReady when
present; play lowers the paused flag and fires onPlay; pause and ended raise
the paused flag and fire onPause / onEnded; an absent callback yields no
callback invocation at all, and no other state field moves. -/
theorem sdk_event_bridge (pr : Props) (s : WidgetState) :
    stepOp pr Op.evReady s =
      ({ s with
          isLoading := false
          error := none
          isPlayerReady := true
          isPaused := false },
       if pr.onReady then [Effect.cbReady] else []) ∧
    stepOp pr Op.evPlay s =
      ({ s with isPaused := false }, if pr.onPlay then [Effect.cbPlay] else []) ∧
    stepOp pr Op.evPause s =
      ({ s with isPaused := true }, if pr.onPause then [Effect.cbPause] else []) ∧
    stepOp pr Op.evEnded s =
      ({ s with isPaused := true }, if pr.onEnded then [Effect.cbEnded] else []) :=
  ⟨rfl, rfl, rfl, rfl⟩

/-- C7: the SDK seek bridge reads the current playback time off the captured
instance, invokes onSeek with exactly that time when the callback is present
(and is silent when absent), and leaves the whole widget state — the paused
flag included — unchanged. -/
theorem sdk_seek_bridge (pr : Props) (s : WidgetState)
    (p : TwitchPlayerInstance) (hp : s.player = some p) :
    stepOp pr Op.evSeek s =
      (s, Effect.instGetCurrentTime p.instId ::
          (if pr.onSeek then [Effect.cbSeek p.currentTime] else [])) := by
  simp [stepOp, hp, seekHandler]

/-- Witness for C7 with a live instance at playback time 17. -/
theorem sdk_seek_bridge_witness :
    stepOp ⟨true, true, true, true, true⟩ Op.evSeek
        { initState with player := some ⟨0, 0, false, 17, 0, ""⟩ } =
      ({ initState with player := some ⟨0, 0, false, 17, 0, ""⟩ },
       [Effect.instGetCurrentTime 0, Effect.cbSeek 17]) := by
  have h := sdk_seek_bridge ⟨true, true, true, true, true⟩
    { initState with player := some ⟨0, 0, false, 17, 0, ""⟩ }
    ⟨0, 0, false, 17, 0, ""⟩ rfl
  simpa using h

/-- C8 as stated is false on the code: two effect runs both finding the SDK
global absent (a second mount or configuration change before the first
script settles) append two script elements to the page. -/
theorem double_mount_injects_twice :
    (runPage [PageOp.run, PageOp.run] initPage).1.injected = 2 := by
  decide

/-- C8 amended: when the SDK global is present the effect run invokes the
success path synchronously in the same tick and injects nothing; when it is
absent the run injects exactly one script element, whose settling invokes
the load continuation or the error handler exactly once; and once a script
has settled successfully, no later run ever injects again — so the injection
is once per page only when each injected script settles before the next
effect run. -/
theorem script_loader_check_then_inject :
    (∀ pg : PageState, pg.twitchPresent = true →
      effectRun pg = (pg, [PageEff.runLoadSync])) ∧
    (∀ pg : PageState, pg.twitchPresent = false →
      effectRun pg =
        ({ pg with
            pendingScripts := pg.pendingScripts + 1
            injected := pg.injected + 1 },
         [PageEff.appendScript])) ∧
    (∀ pg : PageState, pg.pendingScripts ≠ 0 →
      scriptSettle true pg =
        ({ pg with
            pendingScripts := pg.pendingScripts - 1
            twitchPresent := true },
         [PageEff.runLoadSync]) ∧
      scriptSettle false pg =
        ({ pg with pendingScripts := pg.pendingScripts - 1 },
         [PageEff.runScriptOnError])) ∧
    (∀ (pg : PageState) (ops : List PageOp), pg.twitchPresent = true →
      (runPage ops pg).1.injected = pg.injected) := by
  refine ⟨?_, ?_, ?_, ?_⟩
  · intro pg h; simp [effectRun, h]
  · intro pg h; simp [effectRun, h]
  · intro pg h
    constructor <;> simp [scriptSettle, h]
  · intro pg ops h
    exact (runPage_no_inject_when_present ops pg h).1

/-- Witness for the amended C8: a success settle then two more effect runs
inject nothing further. -/
theorem script_loader_check_then_inject_witness :
    (runPage [PageOp.run, PageOp.run]
        { twitchPresent := true, pendingScripts := 0, injected := 1 }).1.injected = 1 :=
  script_loader_check_then_inject.2.2.2
    { twitchPresent := true, pendingScripts := 0, injected := 1 }
    [PageOp.run, PageOp.run] rfl

/-- C9: pointer activity at time t shows the overlay and leaves exactly one
pending idle timer, armed for exactly t+3000 ms, whose firing hides the
overlay and empties the timer table; a pointer-leave hides the overlay
immediately and cancels the pending hide; and along every run from the
mounted widget at most one idle timer is ever pending. -/
theorem overlay_idle_timer (pr : Props) (ops : List Op) (t : Nat)
    (s : WidgetState) (ht : TimerInv s) :
    ((handleMouseActivity t s).showControls = true ∧
      ∃ i, (handleMouseActivity t s).hideControlsTimeoutRef = some i ∧
        (handleMouseActivity t s).pendingTimers = [(i, t + 3000)] ∧
        (fireHideTimer i (t + 3000) (handleMouseActivity t s)).showControls = false ∧
        (fireHideTimer i (t + 3000) (handleMouseActivity t s)).pendingTimers = []) ∧
    ((handleMouseLeave s).showControls = false ∧
      (handleMouseLeave s).pendingTimers = []) ∧
    ((runOps pr ops initState).1.pendingTimers).length ≤ 1 := by
  have hts : TimerInv { s with showControls := true } := by
    rcases ht with ⟨h1, h2⟩ | ⟨i, d, h1, h2⟩
    · exact Or.inl ⟨h1, h2⟩
    · exact Or.inr ⟨i, d, h1, h2⟩
  have htl : TimerInv { s with showControls := false } := by
    rcases ht with ⟨h1, h2⟩ | ⟨i, d, h1, h2⟩
    · exact Or.inl ⟨h1, h2⟩
    · exact Or.inr ⟨i, d, h1, h2⟩
  have hc := clearHideTimeout_clears { s with showControls := true } hts
  have hl := clearHideTimeout_clears { s with showControls := false } htl
  refine ⟨⟨?_, ?_⟩, ⟨?_, ?_⟩, ?_⟩
  · simp [handleMouseActivity, clearHideTimeout_showControls]
  · refine ⟨(clearHideTimeout { s with showControls := true }).nextTimerId,
      by simp [handleMouseActivity], by simp [handleMouseActivity, hc.2], ?_, ?_⟩ <;>
      simp [handleMouseActivity, fireHideTimer, hc.2, List.filter]
  · simp [handleMouseLeave, clearHideTimeout_showControls]
  · exact hl.2
  · rcases (inv_runOps pr ops initState inv_initState).2.1 with ⟨h1, h2⟩ | ⟨i, d, h1, h2⟩ <;>
      simp [h2]

/-- Witness for C9 at the mounted state with activity at time 0. -/
theorem overlay_idle_timer_witness :
    (handleMouseActivity 0 initState).showControls = true :=
  (overlay_idle_timer ⟨true, true, true, true, true⟩ [] 0 initState
    (Or.inl ⟨rfl, rfl⟩)).1.1

/-- C10: an instantiation failure leaves the instance reference null (it is
assigned only after the constructor succeeds), records the instantiation
error with the ready flag down, and — when no prior instance existed —
attempts no destroy and no further construction; a script-load failure
records its own error with the ready flag down; any recorded error makes the
widget render the error surface instead of the player surface; and along
every run from the mounted widget a recorded error excludes the ready flag,
so Errored and Ready are mutually exclusive. -/
theorem failures_are_terminal :
    (∀ (now : Nat) (s : WidgetState),
      (loadTwitchPlayer true now none s).1.player = none ∧
      (loadTwitchPlayer true now none s).1.error =
        some "Failed to initialize Twitch player" ∧
      (loadTwitchPlayer true now none s).1.isPlayerReady = false) ∧
    (∀ (now : Nat) (s : WidgetState), s.player = none →
      (loadTwitchPlayer true now none s).2 =
        [Effect.setInnerHTML (mkPlayerId now), Effect.consoleError]) ∧
    (∀ s : WidgetState, scriptOnError s =
      { s with
          error := some "Failed to load Twitch embed script"
          isLoading := false
          isPlayerReady := false }) ∧
    (∀ (s : WidgetState) (e : String), s.error = some e →
      render s = Surface.errorSurface e) ∧
    (∀ (pr : Props) (ops : List Op),
      ((runOps pr ops initState).1.error).isSome →
        (runOps pr ops initState).1.isPlayerReady = false) := by
  refine ⟨?_, ?_, fun s => rfl, ?_, ?_⟩
  · intro now s
    cases hp : s.player <;> simp [loadTwitchPlayer, hp]
  · intro now s hp
    simp [loadTwitchPlayer, hp]
  · intro s e he
    simp [render, he]
  · intro pr ops h
    exact (inv_runOps pr ops initState inv_initState).2.2 h

/-- Witness for C10: constructor failure on the fresh mount. -/
theorem failures_are_terminal_witness :
    (loadTwitchPlayer true 3 none initState).2 =
      [Effect.setInnerHTML (mkPlayerId 3), Effect.consoleError] :=
  failures_are_terminal.2.1 3 initState rfl

end Foam
